import Mathlib

set_option linter.unusedSectionVars false

/-!
Verification of mikeperalta1/backup-rotator.

Shallow embedding of the retention-decision engine of the backup rotator:

* `src/domain/BackupRotator.py` — the rotation engine working over raw
  YAML config dictionaries (`_rotate_path_for_maximum_items`,
  `_rotate_path_for_maximum_age`, `_pick_oldest_item`, `_remove_file`,
  `_remove_directory`, `_remove_item`, `seconds_to_time_string`,
  `_detect_item_age_days`).
* `src/domain/config/ConfigFile.py` — config loading and validation
  (`ConfigFile._consume`).
* `src/domain/Util.py` — `Util.seconds_to_time_string`,
  `Util.detect_item_creation_date`.

Python floats are modelled as exact rationals (ℚ), Python ints as ℤ.
Fallible Python code (code that can raise) is modelled with `Except`.
Filesystem items are abstracted by a type `α` together with functions
giving each item's stat data; directory listings are lists of items.

Where the source performs float arithmetic whose results feed back into
further computation, the embedding carries the exact value as an integer
numerator over a fixed positive denominator (the denominator of the
input rational), so that every definition evaluates inside the kernel;
the value computed is exactly the rational value of the source's
arithmetic.
-/

namespace BackupRotator

/-- Python `int(a / b)` for exact rationals `a = an/ad`, `b = bn/bd`
(`ad, bd > 0`, `b > 0`): truncation toward zero of the quotient,
computed as integer T-division of cross-multiplied numerators.
`Int.tdiv` truncates toward zero, and scaling numerator and denominator
by the positive factor `ad * bd` does not change the truncated
quotient. -/
def truncRatDiv (an ad bn bd : ℤ) : ℤ :=
  (an * bd).tdiv (ad * bn)

/-- Python numeric values relevant to `seconds_to_time_string`:
an `int` or a `float`. -/
inductive PyNum : Type
  | int (n : ℤ)
  | float (q : ℚ)
deriving DecidableEq, Repr

/-- Python exceptions raised by the embedded code. -/
inductive PyErr : Type
  | typeError
  | fileNotFound
  | assertionError
deriving DecidableEq, Repr

/-- The unit table shared by both copies of `seconds_to_time_string`
(`src/domain/Util.py` lines 101-109 and `src/domain/BackupRotator.py`
lines 329-337): insertion-ordered dict from unit label to seconds.
Every unit value in the source is an integral float (`31536000.0`, ...),
embedded here by its exact integer value. -/
def timeUnits : List (String × ℤ) :=
  [("year", 31536000), ("month", 2592000), ("week", 604800),
   ("day", 86400), ("hour", 3600), ("minute", 60), ("second", 1)]

/-- One iteration of the unit loop of `seconds_to_time_string`, with the
running `seconds` value carried as the integer numerator `acc.2` over
the fixed positive denominator `den`:
if `seconds >= unit_seconds`, emit `"<count> <label>[s]"` with
`unit_count = int(seconds / unit_seconds)` and update
`seconds -= unit_seconds * unit_count`. -/
def timeStringStep (den : ℤ) (acc : List String × ℤ) (u : String × ℤ) :
    List String × ℤ :=
  let parts := acc.1
  let num := acc.2
  if u.2 * den ≤ num then
    let unitCount : ℤ := truncRatDiv num den u.2 1
    (parts ++ [toString unitCount ++ " " ++ u.1 ++
      (if unitCount = 1 then "" else "s")],
     num - u.2 * unitCount * den)
  else
    acc

/-- The common body of both `seconds_to_time_string` functions after the
numeric-type dispatch: loop over `timeUnits` accumulating `s_parts`,
then `", ".join(s_parts)` (`src/domain/Util.py` lines 101-130, loop
repeated verbatim in `src/domain/BackupRotator.py` lines 328-352). -/
def secondsToTimeStringBody (seconds : ℚ) : String :=
  String.intercalate ", "
    (timeUnits.foldl (timeStringStep (seconds.den : ℤ))
      ([], seconds.num)).1

end BackupRotator

namespace Util

open BackupRotator

/-- Embedding of `Util.seconds_to_time_string` (`src/domain/Util.py` lines 91-130):
a float passes through unchanged, an int is converted with
`float(seconds)`, then the shared unit loop runs. Never raises on
numeric input. -/
def seconds_to_time_string : PyNum → String
  | .float q => secondsToTimeStringBody q
  | .int n => secondsToTimeStringBody (n : ℚ)

end Util

namespace BackupRotator

/-- Embedding of `BackupRotator.seconds_to_time_string`
(`src/domain/BackupRotator.py` lines 319-352). The `int` branch executes
`seconds = float * 1.0`, which multiplies the type object `float` itself
by the float `1.0`; in Python this raises
`TypeError: unsupported operand type(s) for *: 'type' and 'float'`
for every int argument, so the branch is embedded as the raised
`TypeError`. The float branch runs the shared unit loop. -/
def seconds_to_time_string : PyNum → Except PyErr String
  | .float q => .ok (secondsToTimeStringBody q)
  | .int _ => .error .typeError

end BackupRotator

namespace BackupRotator

section Engine

variable {α : Type} [DecidableEq α]

/-- Embedding of `BackupRotator._pick_oldest_item`
(`src/domain/BackupRotator.py` lines 273-287): linear scan keeping the
item with the smallest creation timestamp; the comparison
`ctime < best_ctime` is strict, so the first item attaining the minimum
is kept. The source tracks `best_ctime` alongside `best_item`; since the
timestamp of an item is a function of the item, tracking the item alone
is equivalent. Returns `none` exactly on the empty list (the source
returns `best_item = None` there). This is the loop body; the full scan
is `pick_oldest_item` below. -/
def pickStep (ctime : α → ℚ) (best : Option α) (item : α) : Option α :=
  match best with
  | none => some item
  | some b => if ctime item < ctime b then some item else best

/-- The full scan of `_pick_oldest_item`: fold `pickStep` over the items
starting from `best_item = None`. -/
def pick_oldest_item (ctime : α → ℚ) (items : List α) : Option α :=
  items.foldl (pickStep ctime) none

/-- Embedding of `BackupRotator._determine_minimum_items`
(`src/domain/BackupRotator.py` lines 390-400): the value of the
`minimum-items` key, or `0` when the key is absent. -/
def determine_minimum_items (minimumItems : Option ℤ) : ℤ :=
  match minimumItems with
  | some m => m
  | none => 0

/-- The purge-selection loop of `_rotate_path_for_maximum_items`
(`src/domain/BackupRotator.py` lines 183-196): `purge_count` times, pick
the oldest remaining candidate, remove it from the working list
(`children.remove`, which drops the first occurrence of the value, as
`List.erase` does) and queue it. Returns the queued purge list in queue
order together with the final working list. In the source the working
list is always long enough (`purge_count <= len(children)`), so
`_pick_oldest_item` never returns `None` inside the loop; the `none`
branch here is unreachable under that precondition and stops the
loop. -/
def purgeLoop (ctime : α → ℚ) :
    ℕ → List α → List α → List α × List α
  | 0, children, purged => (purged.reverse, children)
  | n + 1, children, purged =>
    match pick_oldest_item ctime children with
    | none => (purged.reverse, children)
    | some b => purgeLoop ctime n (children.erase b) (b :: purged)

/-- Embedding of `BackupRotator._rotate_path_for_maximum_items`
(`src/domain/BackupRotator.py` lines 147-202) on an already-gathered
candidate list: no-op when fewer candidates than `minimum_items` or no
more than `max_items`; otherwise purge
`min(len - max_items, len - minimum_items)` oldest candidates.
Returns `(purged, remaining)`: the queued purge list (each of which the
source then deletes via `_remove_item`) and the candidates left in the
watched path. -/
def rotate_path_for_maximum_items (ctime : α → ℚ)
    (minimumItems maxItems : ℤ) (children : List α) :
    List α × List α :=
  if (children.length : ℤ) < minimumItems then ([], children)
  else if (children.length : ℤ) ≤ maxItems then ([], children)
  else
    let maximumPurgeCount := (children.length : ℤ) - minimumItems
    let purgeCount0 := (children.length : ℤ) - maxItems
    let purgeCount :=
      if purgeCount0 > maximumPurgeCount then maximumPurgeCount
      else purgeCount0
    purgeLoop ctime purgeCount.toNat children []

/-- Embedding of `BackupRotator._detect_item_age_days`
(`src/domain/BackupRotator.py` lines 312-317): `int(age_seconds / 86400)`
where `age_seconds = now - ctime` (`_detect_item_age_seconds`, lines
304-310). The truncated quotient is computed on the exact fractions:
`now - ctime = (now.num * ctime.den - ctime.num * now.den) /
(now.den * ctime.den)` with positive denominator. -/
def detect_item_age_days (now ctime : ℚ) : ℤ :=
  truncRatDiv
    (now.num * (ctime.den : ℤ) - ctime.num * (now.den : ℤ))
    ((now.den : ℤ) * (ctime.den : ℤ)) 86400 1

/-- Embedding of `BackupRotator._rotate_path_for_maximum_age`
(`src/domain/BackupRotator.py` lines 204-245) on an already-gathered
candidate list: no-op when fewer candidates than `minimum_items`;
otherwise mark for deletion exactly the candidates whose age in whole
days strictly exceeds `max_age_days`, then delete every marked one.
Returns `(deleted, remaining)`; the remaining component is the
complement, which is what stays in the watched path since directory
entries are pairwise distinct and each marked entry is removed. -/
def rotate_path_for_maximum_age (ctime : α → ℚ) (now : ℚ)
    (minimumItems maxAgeDays : ℤ) (children : List α) :
    List α × List α :=
  if (children.length : ℤ) < minimumItems then ([], children)
  else
    (children.filter
       (fun c => decide (maxAgeDays < detect_item_age_days now (ctime c))),
     children.filter
       (fun c => !decide (maxAgeDays < detect_item_age_days now (ctime c))))

end Engine

/-- The filesystem kind of an item at removal time, as inspected by
`BackupRotator._remove_item` (`src/domain/BackupRotator.py` lines
354-361): a plain file, a directory, or neither. -/
inductive ItemKind : Type
  | file
  | directory
  | other
deriving DecidableEq, Repr

/-- The slice of a raw YAML config dict that the removal functions read:
the `dry-run` key. The source tests `config["dry-run"] is True`, so only
a present `True` value suppresses; a present non-`True` value (including
non-boolean values) behaves like `some false` here, and an absent key is
`none`. -/
structure DictConfig : Type where
  dryRun : Option Bool
deriving DecidableEq, Repr

/-- Outcome of a removal call: an actual deletion, a logged dry-run
suppression (global-level or config-level), or a raised exception. -/
inductive RemoveResult : Type
  | purgedFile
  | purgedDirectory
  | skipGlobalFile
  | skipGlobalDirectory
  | skipConfigFile
  | skipConfigDirectory
  | raisedNotAFile
  | raisedNotADirectory
  | raisedUnknownKind
deriving DecidableEq, Repr

/-- Test `config["dry-run"] is True` as evaluated by `_remove_file` and
`_remove_directory` (lines 370 and 383). -/
def configDryRunIsTrue (config : DictConfig) : Bool :=
  config.dryRun = some true

/-- Embedding of `BackupRotator._remove_file`
(`src/domain/BackupRotator.py` lines 363-374): raise unless the path is
a file; else the global dry-run flag logs and suppresses; else a config
dict whose `dry-run` is `True` logs and suppresses; else delete. -/
def remove_file (globalDryRun : Bool) (config : DictConfig)
    (isFile : Bool) : RemoveResult :=
  if !isFile then .raisedNotAFile
  else if globalDryRun then .skipGlobalFile
  else if configDryRunIsTrue config then .skipConfigFile
  else .purgedFile

/-- Embedding of `BackupRotator._remove_directory`
(`src/domain/BackupRotator.py` lines 376-387): raise unless the path is
a directory; else the global dry-run flag logs and suppresses; else a
config dict whose `dry-run` is `True` logs and suppresses; else delete
the tree recursively. -/
def remove_directory (globalDryRun : Bool) (config : DictConfig)
    (isDir : Bool) : RemoveResult :=
  if !isDir then .raisedNotADirectory
  else if globalDryRun then .skipGlobalDirectory
  else if configDryRunIsTrue config then .skipConfigDirectory
  else .purgedDirectory

/-- Embedding of `BackupRotator._remove_item`
(`src/domain/BackupRotator.py` lines 354-361): dispatch on the kind the
item has at removal time. -/
def remove_item (globalDryRun : Bool) (config : DictConfig)
    (kind : ItemKind) : RemoveResult :=
  match kind with
  | .file => remove_file globalDryRun config true
  | .directory => remove_directory globalDryRun config true
  | .other => .raisedUnknownKind

end BackupRotator

namespace ConfigFile

/-- A scalar YAML value sitting in one of the option slots. `other`
stands for any value that is neither a bool, an int, a string nor null
(for example a nested list or a float), which fails every `isinstance`
check the loader performs. -/
inductive YamlScalar : Type
  | bool (b : Bool)
  | int (n : ℤ)
  | str (s : String)
  | null
  | other
deriving DecidableEq, Repr

/-- One entry of a `paths` list: a string, or anything else. (A
`yaml.safe_load` document never contains `pathlib.Path` objects, so the
`isinstance(p, Path)` branch of the source is dead for loaded files.) -/
inductive PathEntry : Type
  | str (s : String)
  | other
deriving DecidableEq, Repr

/-- The top-level `paths` value of a raw document. -/
inductive PathsField : Type
  | missing
  | str (s : String)
  | list (xs : List PathEntry)
  | other
deriving DecidableEq, Repr

/-- The `options` mapping of a raw document, one slot per key the
loader reads; `none` means the key is absent. -/
structure RawOptions : Type where
  dryRun : Option YamlScalar
  minimumItems : Option YamlScalar
  maximumItems : Option YamlScalar
  maximumAge : Option YamlScalar
  targetType : Option YamlScalar
  dateDetection : Option YamlScalar
deriving DecidableEq, Repr

/-- The top-level `options` key: absent, present but not a mapping, or a
mapping. -/
inductive OptionsField : Type
  | missing
  | notDict
  | dict (o : RawOptions)
deriving DecidableEq, Repr

/-- A raw YAML config document (a top-level mapping, as required by the
first assertion of `_consume`), restricted to the keys the loader
reads. -/
structure RawDoc : Type where
  options : OptionsField
  paths : PathsField
deriving DecidableEq, Repr

/-- The validation failures of `ConfigFile._consume`
(`src/domain/config/ConfigFile.py` lines 95-209), one per `assert` /
`raise`, in source order. -/
inductive ConsumeError : Type
  | missingOptions
  | optionsNotDict
  | dryRunNotBool
  | minItemsNotInt
  | missingRetentionRule
  | maxItemsNotInt
  | maxItemsNotPositive
  | maxAgeNotIntOrNull
  | maxAgeNotPositive
  | targetTypeMissing
  | targetTypeNotStr
  | targetTypeInvalid
  | dateDetectionNotStr
  | dateDetectionInvalid
  | dateDetectionMissing
  | pathsMissing
  | pathsNotStrOrList
  | pathEntryInvalid
deriving DecidableEq, Repr

/-- The loaded, validated policy: the state of a `ConfigFile` object
after `_consume` succeeds (`src/domain/config/ConfigFile.py` lines
21-46 for the defaults, 95-209 for the assignments). -/
structure ConfigRecord : Type where
  dryRun : Bool
  minimumItems : ℤ
  maximumItems : Option ℤ
  maximumAge : Option ℤ
  targetType : String
  dateDetection : String
  rotatablePaths : List String
deriving DecidableEq, Repr

/-- Python `isinstance(v, bool)` on a YAML scalar, returning the bool. -/
def asPyBool : YamlScalar → Option Bool
  | .bool b => some b
  | _ => none

/-- Python `isinstance(v, int)` on a YAML scalar, returning the integer
value. In Python `bool` is a subclass of `int`, so `True` and `False`
pass the check with values 1 and 0. -/
def asPyInt : YamlScalar → Option ℤ
  | .int n => some n
  | .bool b => some (if b then 1 else 0)
  | _ => none

/-- Python `isinstance(v, str)` on a YAML scalar, returning the
string. -/
def asPyStr : YamlScalar → Option String
  | .str s => some s
  | _ => none

/-- The `dry-run` rule (`ConfigFile._consume`, lines 109-116): if
present it must be a bool and is stored; otherwise the default `True`
set in `__init__` (line 32) is kept. -/
def consumeDryRun (o : RawOptions) : Except ConsumeError Bool :=
  match o.dryRun with
  | some v =>
    match asPyBool v with
    | some b => .ok b
    | none => .error .dryRunNotBool
  | none => .ok true

/-- The `minimum-items` rule (`ConfigFile._consume`, lines 118-129): if
present it must be an int and is stored; otherwise the default `0` set
in `__init__` (line 40) is kept. -/
def consumeMinimumItems (o : RawOptions) : Except ConsumeError ℤ :=
  match o.minimumItems with
  | some v =>
    match asPyInt v with
    | some n => .ok n
    | none => .error .minItemsNotInt
  | none => .ok 0

/-- The `maximum-items` rule (`ConfigFile._consume`, lines 139-153): if
present it must be an int and strictly positive; otherwise the field
stays `None`. -/
def consumeMaximumItems (o : RawOptions) : Except ConsumeError (Option ℤ) :=
  match o.maximumItems with
  | some v =>
    match asPyInt v with
    | some n => if 0 < n then .ok (some n) else .error .maxItemsNotPositive
    | none => .error .maxItemsNotInt
  | none => .ok none

/-- The `maximum-age` rule (`ConfigFile._consume`, lines 155-169): if
present it must be null or an int, and if an int, strictly positive;
null is tolerated as disabled; otherwise the field stays `None`. -/
def consumeMaximumAge (o : RawOptions) : Except ConsumeError (Option ℤ) :=
  match o.maximumAge with
  | some v =>
    match v with
    | .null => .ok none
    | _ =>
      match asPyInt v with
      | some n => if 0 < n then .ok (some n) else .error .maxAgeNotPositive
      | none => .error .maxAgeNotIntOrNull
  | none => .ok none

/-- The `target-type` rule (`ConfigFile._consume`, lines 171-182):
required, must be a string, must be `"file"` or `"directory"`. -/
def consumeTargetType (o : RawOptions) : Except ConsumeError String :=
  match o.targetType with
  | none => .error .targetTypeMissing
  | some v =>
    match asPyStr v with
    | none => .error .targetTypeNotStr
    | some s =>
      if s = "file" ∨ s = "directory" then .ok s
      else .error .targetTypeInvalid

/-- The `date-detection` rule (`ConfigFile._consume`, lines 184-202):
required (absence is a hard failure), must be a string, must be
`"file"`. -/
def consumeDateDetection (o : RawOptions) : Except ConsumeError String :=
  match o.dateDetection with
  | none => .error .dateDetectionMissing
  | some v =>
    match asPyStr v with
    | none => .error .dateDetectionNotStr
    | some s => if s = "file" then .ok s else .error .dateDetectionInvalid

/-- Entry-wise validation of a `paths` list (`ConfigFile._consume`,
lines 216-225): every entry must be a string (raising at the first one
that is not). -/
def consumePathEntries : List PathEntry → Except ConsumeError (List String)
  | [] => .ok []
  | .str s :: rest => (consumePathEntries rest).map (fun l => s :: l)
  | .other :: _ => .error .pathEntryInvalid

/-- The `paths` rule (`ConfigFile._consume`, lines 209-227): required; a
single string becomes a one-element list; a list must contain only
strings. -/
def consumePaths : PathsField → Except ConsumeError (List String)
  | .missing => .error .pathsMissing
  | .str s => .ok [s]
  | .list xs => consumePathEntries xs
  | .other => .error .pathsNotStrOrList

/-- Embedding of `ConfigFile._consume` (`src/domain/config/ConfigFile.py`
lines 95-209): validate the raw document in source order, short-circuiting at
the first failing rule — `options` present and a mapping, `dry-run`,
`minimum-items`, then the retention-rule presence assertion
(`maximum-items` or `maximum-age` must be present, lines 131-137), then
`maximum-items`, `maximum-age`, `target-type`, `date-detection`, and
finally `paths`. -/
def consume (doc : RawDoc) : Except ConsumeError ConfigRecord :=
  match doc.options with
  | .missing => .error .missingOptions
  | .notDict => .error .optionsNotDict
  | .dict o =>
    match consumeDryRun o with
    | .error e => .error e
    | .ok dryRun =>
      match consumeMinimumItems o with
      | .error e => .error e
      | .ok minimumItems =>
        if o.maximumItems = none ∧ o.maximumAge = none then
          .error .missingRetentionRule
        else
          match consumeMaximumItems o with
          | .error e => .error e
          | .ok maximumItems =>
            match consumeMaximumAge o with
            | .error e => .error e
            | .ok maximumAge =>
              match consumeTargetType o with
              | .error e => .error e
              | .ok targetType =>
                match consumeDateDetection o with
                | .error e => .error e
                | .ok dateDetection =>
                  match consumePaths doc.paths with
                  | .error e => .error e
                  | .ok rotatablePaths =>
                    .ok ⟨dryRun, minimumItems, maximumItems, maximumAge,
                         targetType, dateDetection, rotatablePaths⟩

/-- Decision of the removal path of the record-based driver for one
item of one config. -/
inductive RemoveDecision : Type
  | purge
  | skipGlobal
  | skipConfig
deriving DecidableEq, Repr

/-- Modelled from the spec: the removal step of the rotator revision
that consumes loaded `ConfigFile` records. That revision is not under
src/ — `src/main.py` constructs
`BackupRotator(config_paths=..., debug=..., ...)` and calls
`run(global_dry_run=...)`, a signature that none of the `BackupRotator`
classes under src/ provides — so its removal step is modelled from spec
§4.6: a global dry-run flag suppresses all deletions; otherwise the
Config Record's own `dryRun` flag suppresses deletions for that config;
otherwise the deletion is performed. -/
def remove_item_for_record (globalDryRun : Bool) (record : ConfigRecord) :
    RemoveDecision :=
  if globalDryRun then .skipGlobal
  else if record.dryRun then .skipConfig
  else .purge

end ConfigFile

namespace BackupRotator

/-- The state of an item at the moment `_detect_item_date` stats it:
still present with its creation timestamp, or vanished (in which case
`os.path.getctime` raises `FileNotFoundError`). -/
inductive FileState : Type
  | present (ctime : ℚ)
  | vanished
deriving DecidableEq, Repr

/-- Embedding of `BackupRotator._detect_item_date`
(`src/domain/BackupRotator.py` lines 289-302) with
`date-detection = "file"`: `os.path.getctime(item)`, which raises
`FileNotFoundError` when the item has vanished. -/
def detect_item_date {α : Type} (st : α → FileState) (item : α) :
    Except PyErr ℚ :=
  match st item with
  | .present c => .ok c
  | .vanished => .error .fileNotFound

/-- Embedding of `BackupRotator._pick_oldest_item`
(`src/domain/BackupRotator.py` lines 273-287) with the fallibility of
the stat call made explicit: the loop body calls `_detect_item_date`
on every item, and the loop contains no exception handler, so a raised
`FileNotFoundError` propagates out of the whole scan. The accumulator
carries `(best_item, best_ctime)`. -/
def pick_oldest_item_fallible {α : Type} (st : α → FileState) :
    List α → Option (α × ℚ) → Except PyErr (Option α)
  | [], best => .ok (best.map Prod.fst)
  | item :: rest, best =>
    match detect_item_date st item with
    | .error e => .error e
    | .ok c =>
      match best with
      | none => pick_oldest_item_fallible st rest (some (item, c))
      | some (b, bc) =>
        if c < bc then pick_oldest_item_fallible st rest (some (item, c))
        else pick_oldest_item_fallible st rest (some (b, bc))

/-- The count-based arm of `BackupRotator._rotate_path`
(`src/domain/BackupRotator.py` lines 130-145): the count-based pass is
invoked, and hence can purge, only when the `maximum-items` key is
present in the config. -/
def rotate_path_count_purged {α : Type} [DecidableEq α] (ctime : α → ℚ)
    (minimumItems : ℤ) (maxItems : Option ℤ) (children : List α) :
    List α :=
  match maxItems with
  | none => []
  | some m => (rotate_path_for_maximum_items ctime minimumItems m children).1

end BackupRotator

namespace Util

open BackupRotator

/-- The stat fields of an item as probed by
`Util.detect_item_creation_date`: `st_ctime` and `st_mtime` always
exist; `st_birthtime` is `none` on platforms that do not expose it,
where reading the attribute raises `AttributeError`. -/
structure StatData : Type where
  ctime : ℚ
  mtime : ℚ
  birthtime : Option ℚ
deriving DecidableEq, Repr

/-- The state of an item at the moment `Util.detect_item_creation_date`
stats it: still present with its stat data, or vanished (every `stat()`
call raises `FileNotFoundError`). -/
inductive ItemState : Type
  | found (s : StatData)
  | vanished
deriving DecidableEq, Repr

/-- Embedding of `Util.detect_item_creation_date`
(`src/domain/Util.py` lines 27-59) with `date_detection = "file"`:
assigns `st_ctime`, then `st_mtime`, then `st_birthtime` to `stat`,
keeping the last value obtained. A raised `AttributeError` (platform
without `st_birthtime`) is swallowed by `pass`, leaving `st_mtime`; a
raised `FileNotFoundError` is caught and explicitly re-raised
(`except FileNotFoundError as e: raise e`), so a vanished item
propagates the exception to the caller instead of being skipped. -/
def detect_item_creation_date (st : ItemState) : Except PyErr ℚ :=
  match st with
  | .vanished => .error .fileNotFound
  | .found s =>
    match s.birthtime with
    | some b => .ok b
    | none => .ok s.mtime

end Util

/-!
Helper lemmas about the oldest-item scan and the purge loop.
-/

namespace BackupRotator

section PickLemmas

variable {α : Type} [DecidableEq α] (ctime : α → ℚ)

theorem foldl_pickStep_mem (l : List α) :
    ∀ (acc : Option α) (b : α),
      l.foldl (pickStep ctime) acc = some b → acc = some b ∨ b ∈ l := by
  induction l with
  | nil => exact fun acc b h => Or.inl h
  | cons x xs ih =>
    intro acc b h
    rcases ih (pickStep ctime acc x) b h with h1 | h2
    · cases acc with
      | none =>
        right
        simp only [pickStep, Option.some.injEq] at h1
        rw [← h1]
        exact List.mem_cons_self x xs
      | some a =>
        by_cases hc : ctime x < ctime a
        · right
          simp only [pickStep, if_pos hc, Option.some.injEq] at h1
          rw [← h1]
          exact List.mem_cons_self x xs
        · left
          simp only [pickStep, if_neg hc] at h1
          exact h1
    · exact Or.inr (List.mem_cons_of_mem x h2)

theorem foldl_pickStep_le (l : List α) :
    ∀ (acc : Option α) (b : α),
      l.foldl (pickStep ctime) acc = some b →
      (∀ x ∈ l, ctime b ≤ ctime x) ∧
      (∀ a, acc = some a → ctime b ≤ ctime a) := by
  induction l with
  | nil =>
    intro acc b h
    refine ⟨fun x hx => absurd hx (List.not_mem_nil x), fun a ha => ?_⟩
    rw [ha] at h
    simp only [List.foldl_nil, Option.some.injEq] at h
    exact le_of_eq (congrArg ctime h.symm)
  | cons x xs ih =>
    intro acc b h
    have H := ih (pickStep ctime acc x) b h
    constructor
    · intro y hy
      rcases List.mem_cons.mp hy with rfl | hy'
      · cases acc with
        | none => exact H.2 y rfl
        | some a =>
          by_cases hc : ctime y < ctime a
          · exact H.2 y (by simp [pickStep, if_pos hc])
          · exact le_trans (H.2 a (by simp [pickStep, if_neg hc]))
              (not_lt.mp hc)
      · exact H.1 y hy'
    · intro a ha
      by_cases hc : ctime x < ctime a
      · exact le_trans (H.2 x (by rw [ha]; simp [pickStep, if_pos hc]))
          (le_of_lt hc)
      · exact H.2 a (by rw [ha]; simp [pickStep, if_neg hc])

theorem foldl_pickStep_some (l : List α) :
    ∀ a : α, ∃ b, l.foldl (pickStep ctime) (some a) = some b := by
  induction l with
  | nil => exact fun a => ⟨a, rfl⟩
  | cons x xs ih =>
    intro a
    show ∃ b, xs.foldl (pickStep ctime) (pickStep ctime (some a) x) = some b
    by_cases hc : ctime x < ctime a
    · rw [show pickStep ctime (some a) x = some x by simp [pickStep, if_pos hc]]
      exact ih x
    · rw [show pickStep ctime (some a) x = some a by simp [pickStep, if_neg hc]]
      exact ih a

theorem foldl_pickStep_frozen (l : List α) (b : α) :
    (∀ x ∈ l, ¬ ctime x < ctime b) →
    l.foldl (pickStep ctime) (some b) = some b := by
  induction l with
  | nil => exact fun _ => rfl
  | cons x xs ih =>
    intro h
    show xs.foldl (pickStep ctime) (pickStep ctime (some b) x) = some b
    rw [show pickStep ctime (some b) x = some b by
      simp [pickStep, if_neg (h x (List.mem_cons_self x xs))]]
    exact ih (fun y hy => h y (List.mem_cons_of_mem x hy))

theorem pick_oldest_item_mem {l : List α} {b : α}
    (h : pick_oldest_item ctime l = some b) : b ∈ l := by
  rcases foldl_pickStep_mem ctime l none b h with h1 | h2
  · exact absurd h1 (by simp)
  · exact h2

theorem pick_oldest_item_le {l : List α} {b : α}
    (h : pick_oldest_item ctime l = some b) :
    ∀ x ∈ l, ctime b ≤ ctime x :=
  (foldl_pickStep_le ctime l none b h).1

theorem pick_oldest_item_isSome (l : List α) (h : l ≠ []) :
    ∃ b, pick_oldest_item ctime l = some b := by
  cases l with
  | nil => exact absurd rfl h
  | cons x xs =>
    show ∃ b, xs.foldl (pickStep ctime) (pickStep ctime none x) = some b
    rw [show pickStep ctime none x = some x from rfl]
    exact foldl_pickStep_some ctime xs x

theorem pick_oldest_item_first (l₁ l₂ : List α) (b : α)
    (h₁ : ∀ x ∈ l₁, ctime b < ctime x) (h₂ : ∀ x ∈ l₂, ctime b ≤ ctime x) :
    pick_oldest_item ctime (l₁ ++ b :: l₂) = some b := by
  unfold pick_oldest_item
  rw [List.foldl_append]
  cases hA : List.foldl (pickStep ctime) none l₁ with
  | none =>
    show l₂.foldl (pickStep ctime) (pickStep ctime none b) = some b
    rw [show pickStep ctime none b = some b from rfl]
    exact foldl_pickStep_frozen ctime l₂ b
      (fun x hx => not_lt.mpr (h₂ x hx))
  | some c =>
    have hc : c ∈ l₁ := by
      rcases foldl_pickStep_mem ctime l₁ none c hA with h | h
      · exact absurd h (by simp)
      · exact h
    show l₂.foldl (pickStep ctime) (pickStep ctime (some c) b) = some b
    rw [show pickStep ctime (some c) b = some b by
      simp [pickStep, if_pos (h₁ c hc)]]
    exact foldl_pickStep_frozen ctime l₂ b
      (fun x hx => not_lt.mpr (h₂ x hx))

theorem purgeLoop_succ_def (n : ℕ) (children purged : List α) :
    purgeLoop ctime (n + 1) children purged =
      match pick_oldest_item ctime children with
      | none => (purged.reverse, children)
      | some b => purgeLoop ctime n (children.erase b) (b :: purged) :=
  rfl

theorem purgeLoop_lengths (n : ℕ) :
    ∀ (children purged : List α), n ≤ children.length →
      (purgeLoop ctime n children purged).2.length = children.length - n ∧
      (purgeLoop ctime n children purged).1.length = purged.length + n := by
  induction n with
  | zero =>
    intro children purged _
    constructor <;> simp [purgeLoop]
  | succ m ih =>
    intro children purged h
    have hne : children ≠ [] := by
      intro he
      rw [he] at h
      simp at h
    obtain ⟨b, hb⟩ := pick_oldest_item_isSome ctime children hne
    have hmem : b ∈ children := pick_oldest_item_mem ctime hb
    have hlen : (children.erase b).length = children.length - 1 :=
      List.length_erase_of_mem hmem
    rw [purgeLoop_succ_def, hb]
    have hm : m ≤ (children.erase b).length := by rw [hlen]; omega
    obtain ⟨h1, h2⟩ := ih (children.erase b) (b :: purged) hm
    constructor
    · rw [h1, hlen]
      omega
    · rw [h2]
      simp
      omega

theorem purgeLoop_sep (n : ℕ) :
    ∀ (children purged : List α),
      (∀ p ∈ purged, ∀ c ∈ children, ctime p ≤ ctime c) →
      ∀ p ∈ (purgeLoop ctime n children purged).1,
        ∀ r ∈ (purgeLoop ctime n children purged).2, ctime p ≤ ctime r := by
  induction n with
  | zero =>
    intro children purged h p hp r hr
    simp [purgeLoop] at hp hr
    exact h p hp r hr
  | succ m ih =>
    intro children purged h
    cases hb : pick_oldest_item ctime children with
    | none =>
      intro p hp r hr
      rw [purgeLoop_succ_def, hb] at hp hr
      simp at hp hr
      exact h p hp r hr
    | some b =>
      intro p hp r hr
      rw [purgeLoop_succ_def, hb] at hp hr
      refine ih (children.erase b) (b :: purged) ?_ p hp r hr
      intro q hq c hc
      have hc' : c ∈ children := List.mem_of_mem_erase hc
      rcases List.mem_cons.mp hq with rfl | hq'
      · exact pick_oldest_item_le ctime hb c hc'
      · exact h q hq' c hc'

theorem rotate_items_eq_of_lt (minI maxI : ℤ) (children : List α)
    (h : (children.length : ℤ) < minI) :
    rotate_path_for_maximum_items ctime minI maxI children =
      ([], children) := by
  unfold rotate_path_for_maximum_items
  rw [if_pos h]

theorem rotate_items_eq_of_le (minI maxI : ℤ) (children : List α)
    (h : (children.length : ℤ) ≤ maxI) :
    rotate_path_for_maximum_items ctime minI maxI children =
      ([], children) := by
  unfold rotate_path_for_maximum_items
  by_cases h1 : (children.length : ℤ) < minI
  · rw [if_pos h1]
  · rw [if_neg h1, if_pos h]

theorem rotate_items_remaining_length (minI maxI : ℤ) (children : List α)
    (h0 : 0 ≤ minI) (hmax : maxI < (children.length : ℤ))
    (hmin : minI ≤ (children.length : ℤ)) :
    ((rotate_path_for_maximum_items ctime minI maxI children).2.length : ℤ)
      = max maxI minI := by
  have key : ∀ n : ℕ, n ≤ children.length →
      ((purgeLoop ctime n children []).2.length : ℤ)
        = (children.length : ℤ) - (n : ℤ) := by
    intro n hn
    rw [(purgeLoop_lengths ctime n children [] hn).1]
    omega
  unfold rotate_path_for_maximum_items
  rw [if_neg (not_lt.mpr hmin), if_neg (not_le.mpr hmax)]
  dsimp only
  rw [key _ (by split <;> omega)]
  split <;> omega

theorem rotate_items_sep (minI maxI : ℤ) (children : List α) :
    ∀ p ∈ (rotate_path_for_maximum_items ctime minI maxI children).1,
      ∀ r ∈ (rotate_path_for_maximum_items ctime minI maxI children).2,
        ctime p ≤ ctime r := by
  unfold rotate_path_for_maximum_items
  by_cases h1 : (children.length : ℤ) < minI
  · rw [if_pos h1]
    intro p hp
    exact absurd hp (List.not_mem_nil p)
  · rw [if_neg h1]
    by_cases h2 : (children.length : ℤ) ≤ maxI
    · rw [if_pos h2]
      intro p hp
      exact absurd hp (List.not_mem_nil p)
    · rw [if_neg h2]
      dsimp only
      exact purgeLoop_sep ctime _ children []
        (fun q hq => absurd hq (List.not_mem_nil q))

end PickLemmas

end BackupRotator

/-!
Claim theorems.
-/

open BackupRotator ConfigFile

/-- C1 (counterexample): the claim says neither rotation pass ever
reduces the number of candidates remaining in a watched path below
`minimumItems`. With `minimum-items = 1`, `maximum-age = 1` and two
candidates both 5 days old (creation timestamp 0, now = 432000 s), the
age-based pass passes its floor pre-check (2 >= 1) and then deletes both
candidates, leaving 0 < 1 remaining. -/
theorem claim_c1_counterexample :
    ((rotate_path_for_maximum_age (fun _ : ℕ => (0 : ℚ))
        ((432000 : ℤ) : ℚ) 1 1 [0, 1]).2.length : ℤ) < 1 ∧
    (1 : ℤ) ≤ (([0, 1] : List ℕ).length : ℤ) ∧
    (rotate_path_for_maximum_age (fun _ : ℕ => (0 : ℚ))
        ((432000 : ℤ) : ℚ) 1 1 [0, 1]).1 = [0, 1] := by
  decide

/-- C1 (amended): the count-based pass never reduces the remaining
candidate count below `minimumItems` (and does not touch a path already
below the floor); the age-based pass enforces the floor only as a
pre-check on the pre-pass count — when the pre-pass count is below
`minimumItems` it deletes nothing, but once the pre-check passes it may
delete every sufficiently old candidate, going below the floor. -/
theorem claim_c1_amended {α : Type} [DecidableEq α] (ctime : α → ℚ)
    (now : ℚ) (minI maxI maxAge : ℤ) (children : List α)
    (h0 : 0 ≤ minI) :
    (minI ≤ (children.length : ℤ) →
      minI ≤ ((rotate_path_for_maximum_items ctime minI maxI
        children).2.length : ℤ)) ∧
    ((children.length : ℤ) < minI →
      rotate_path_for_maximum_items ctime minI maxI children
        = ([], children)) ∧
    ((children.length : ℤ) < minI →
      rotate_path_for_maximum_age ctime now minI maxAge children
        = ([], children)) := by
  refine ⟨?_, ?_, ?_⟩
  · intro hmin
    by_cases h2 : (children.length : ℤ) ≤ maxI
    · rw [rotate_items_eq_of_le ctime minI maxI children h2]
      exact hmin
    · rw [rotate_items_remaining_length ctime minI maxI children h0
        (not_le.mp h2) hmin]
      exact le_max_right maxI minI
  · exact rotate_items_eq_of_lt ctime minI maxI children
  · intro h
    unfold rotate_path_for_maximum_age
    rw [if_pos h]

/-- C1 (witness): with the floor respected — 4 candidates,
`minimum-items = 1`, `maximum-items = 2` — at least 1 candidate remains
after the count-based pass; and with `minimum-items = 5` over 2
candidates the age-based pass deletes nothing. -/
theorem claim_c1_witness :
    (1 : ℤ) ≤ ((rotate_path_for_maximum_items (fun n : ℕ => (n : ℚ))
      1 2 [0, 1, 2, 3]).2.length : ℤ) ∧
    rotate_path_for_maximum_age (fun _ : ℕ => (0 : ℚ))
      ((432000 : ℤ) : ℚ) 5 1 [0, 1] = ([], [0, 1]) := by
  refine ⟨?_, ?_⟩
  · exact (claim_c1_amended (fun n : ℕ => (n : ℚ)) 0 1 2 1 [0, 1, 2, 3]
      (by decide)).1 (by decide)
  · exact (claim_c1_amended (fun _ : ℕ => (0 : ℚ)) ((432000 : ℤ) : ℚ)
      5 2 1 [0, 1] (by decide)).2.2 (by decide)

/-- C2 (counterexample): the claim says the count-based pass deletes
nothing in every case other than (pre-pass count exceeds `maximumItems`
and `minimumItems <= maximumItems`). With `minimum-items = 4`,
`maximum-items = 2` and 5 candidates, the listed hypothesis fails
(4 <= 2 is false) yet the pass deletes one candidate (the oldest),
leaving `max(maximumItems, minimumItems) = 4`. -/
theorem claim_c2_counterexample :
    ¬ ((4 : ℤ) ≤ 2) ∧
    (2 : ℤ) < (([0, 1, 2, 3, 4] : List ℕ).length : ℤ) ∧
    rotate_path_for_maximum_items (fun n : ℕ => (n : ℚ)) 4 2 [0, 1, 2, 3, 4]
      = ([0], [1, 2, 3, 4]) := by
  decide

/-- C2 (amended): whenever the pre-pass count exceeds `maximumItems` and
is at least `minimumItems` (whether or not `minimumItems <=
maximumItems`), after the count-based pass the remaining candidate count
equals `max(maximumItems, minimumItems)`; when the count is within
`maximumItems`, or below `minimumItems`, or `maximum-items` is absent
from the config, the pass deletes nothing. -/
theorem claim_c2_amended {α : Type} [DecidableEq α] (ctime : α → ℚ)
    (minI maxI : ℤ) (children : List α) (h0 : 0 ≤ minI) :
    (maxI < (children.length : ℤ) → minI ≤ (children.length : ℤ) →
      ((rotate_path_for_maximum_items ctime minI maxI
        children).2.length : ℤ) = max maxI minI) ∧
    ((children.length : ℤ) ≤ maxI →
      rotate_path_for_maximum_items ctime minI maxI children
        = ([], children)) ∧
    ((children.length : ℤ) < minI →
      rotate_path_for_maximum_items ctime minI maxI children
        = ([], children)) ∧
    rotate_path_count_purged ctime minI none children = [] :=
  ⟨fun hmax hmin =>
      rotate_items_remaining_length ctime minI maxI children h0 hmax hmin,
   rotate_items_eq_of_le ctime minI maxI children,
   rotate_items_eq_of_lt ctime minI maxI children,
   rfl⟩

/-- C2 (witness): 5 candidates, `maximum-items = 2`, `minimum-items = 0`:
exactly `max(2, 0) = 2` candidates remain; 3 candidates with
`maximum-items = 7`: nothing is deleted. -/
theorem claim_c2_witness :
    ((rotate_path_for_maximum_items (fun n : ℕ => (n : ℚ))
      0 2 [0, 1, 2, 3, 4]).2.length : ℤ) = max 2 0 ∧
    rotate_path_for_maximum_items (fun n : ℕ => (n : ℚ)) 0 7 [0, 1, 2]
      = ([], [0, 1, 2]) := by
  refine ⟨?_, ?_⟩
  · exact (claim_c2_amended (fun n : ℕ => (n : ℚ)) 0 2 [0, 1, 2, 3, 4]
      (by decide)).1 (by decide) (by decide)
  · exact (claim_c2_amended (fun n : ℕ => (n : ℚ)) 0 7 [0, 1, 2]
      (by decide)).2.1 (by decide)

/-- C3: in the age-based pass, a candidate is deleted iff the pre-pass
candidate count is at least `minimumItems`, the candidate is among the
gathered candidates, and its age truncated to whole days is strictly
greater than `maximumAge` (so a candidate exactly `maximumAge` days old
is retained); moreover, once the floor pre-check passes, the deletions
are not clamped any further: if every candidate is old enough, all of
them are deleted. -/
theorem claim_c3 {α : Type} [DecidableEq α] (ctime : α → ℚ) (now : ℚ)
    (minI maxAge : ℤ) (children : List α) :
    (∀ c : α,
      c ∈ (rotate_path_for_maximum_age ctime now minI maxAge children).1 ↔
        (minI ≤ (children.length : ℤ) ∧ c ∈ children ∧
          maxAge < detect_item_age_days now (ctime c))) ∧
    (minI ≤ (children.length : ℤ) →
      (∀ c ∈ children, maxAge < detect_item_age_days now (ctime c)) →
      (rotate_path_for_maximum_age ctime now minI maxAge children).1
        = children) := by
  unfold rotate_path_for_maximum_age
  by_cases hf : (children.length : ℤ) < minI
  · rw [if_pos hf]
    refine ⟨fun c => ⟨fun hc => absurd hc (List.not_mem_nil c), ?_⟩, ?_⟩
    · rintro ⟨h1, -, -⟩
      exact absurd h1 (not_le.mpr hf)
    · intro hmin _
      exact absurd hmin (not_le.mpr hf)
  · rw [if_neg hf]
    refine ⟨fun c => ?_, fun _ hall => ?_⟩
    · dsimp only
      rw [List.mem_filter]
      constructor
      · rintro ⟨hc, hp⟩
        exact ⟨not_lt.mp hf, hc, of_decide_eq_true hp⟩
      · rintro ⟨-, hc, hp⟩
        exact ⟨hc, decide_eq_true hp⟩
    · dsimp only
      exact List.filter_eq_self.mpr
        (fun c hc => decide_eq_true (hall c hc))

/-- C3 (witness): candidates 5 days old (creation timestamp 0, now =
432000 s) against `maximum-age = 4` and `minimum-items = 0`: candidate 0
is deleted; and against `maximum-age = 5` (age exactly equal after
truncation) the deletion list is empty at the boundary, shown by the iff
applied at candidate 0. -/
theorem claim_c3_witness :
    0 ∈ (rotate_path_for_maximum_age (fun _ : ℕ => (0 : ℚ))
      ((432000 : ℤ) : ℚ) 0 4 [0, 1]).1 ∧
    ¬ 0 ∈ (rotate_path_for_maximum_age (fun _ : ℕ => (0 : ℚ))
      ((432000 : ℤ) : ℚ) 0 5 [0, 1]).1 := by
  refine ⟨?_, ?_⟩
  · exact ((claim_c3 (fun _ : ℕ => (0 : ℚ)) ((432000 : ℤ) : ℚ)
      0 4 [0, 1]).1 0).mpr ⟨by decide, by decide, by decide⟩
  · intro hmem
    have h := ((claim_c3 (fun _ : ℕ => (0 : ℚ)) ((432000 : ℤ) : ℚ)
      0 5 [0, 1]).1 0).mp hmem
    exact absurd h.2.2 (by decide)

/-- C4: in every count-based rotation pass, every purged candidate's
creation timestamp is at most every retained candidate's creation
timestamp; and the oldest-item scan breaks timestamp ties by keeping the
first-encountered candidate: whenever every candidate before `b` has a
strictly larger timestamp and every candidate after `b` has a timestamp
at least as large, the scan returns `b`. -/
theorem claim_c4 {α : Type} [DecidableEq α] (ctime : α → ℚ)
    (minI maxI : ℤ) (children l₁ l₂ : List α) (b : α) :
    (∀ p ∈ (rotate_path_for_maximum_items ctime minI maxI children).1,
      ∀ r ∈ (rotate_path_for_maximum_items ctime minI maxI children).2,
        ctime p ≤ ctime r) ∧
    ((∀ x ∈ l₁, ctime b < ctime x) → (∀ x ∈ l₂, ctime b ≤ ctime x) →
      pick_oldest_item ctime (l₁ ++ b :: l₂) = some b) :=
  ⟨rotate_items_sep ctime minI maxI children,
   pick_oldest_item_first ctime l₁ l₂ b⟩

/-- C4 (witness): candidates with timestamps 2, 1, 3 and
`maximum-items = 2`: the purged candidate (timestamp 1) is no newer than
the retained candidate with timestamp 2; and on the list with timestamps
2, 1, 3, 1 the scan returns the first candidate with the minimal
timestamp 1. -/
theorem claim_c4_witness :
    ((1 : ℕ) : ℚ) ≤ ((2 : ℕ) : ℚ) ∧
    pick_oldest_item (fun n : ℕ => (n : ℚ)) ([2] ++ 1 :: [3, 1])
      = some 1 := by
  have h := claim_c4 (fun n : ℕ => (n : ℚ)) 0 2 [2, 1, 3] [2] [3, 1] 1
  exact ⟨h.1 1 (by decide) 2 (by decide), h.2 (by decide) (by decide)⟩

/-- C5: when the global dry-run flag is set, `_remove_item` performs no
deletion — neither a file removal nor a recursive directory removal —
whatever the config dict's own `dry-run` value is, and the suppression
is the logged global-level skip (a distinguished outcome, not a silent
no-op). -/
theorem claim_c5 (config : DictConfig) (kind : ItemKind) :
    (remove_item true config kind ≠ .purgedFile ∧
     remove_item true config kind ≠ .purgedDirectory) ∧
    (kind = .file → remove_item true config kind = .skipGlobalFile) ∧
    (kind = .directory →
      remove_item true config kind = .skipGlobalDirectory) := by
  cases kind <;>
    simp [remove_item, remove_file, remove_directory]

/-- C5 (witness): even a config that explicitly sets `dry-run: false`
cannot override the global dry run: the file and directory removals are
both suppressed with the global-level skip. -/
theorem claim_c5_witness :
    remove_item true ⟨some false⟩ .file = .skipGlobalFile ∧
    remove_item true ⟨some false⟩ .directory = .skipGlobalDirectory :=
  ⟨(claim_c5 ⟨some false⟩ .file).2.1 rfl,
   (claim_c5 ⟨some false⟩ .directory).2.2 rfl⟩

/-- C6: for every raw config document whose options mapping contains
neither `maximum-items` nor `maximum-age`, `_consume` fails with a
validation error; when the earlier `dry-run` and `minimum-items` rules
pass, the error is precisely the missing-retention-rule failure — for
every value of the later-checked `target-type`, `date-detection` and
`paths` fields, showing the check short-circuits before those rules —
and when the `minimum-items` rule fails, its error wins, showing the
check sits after the `minimum-items` rule. -/
theorem claim_c6 (o : RawOptions) (paths : PathsField)
    (hmi : o.maximumItems = none) (hma : o.maximumAge = none) :
    (∃ e, consume ⟨.dict o, paths⟩ = .error e) ∧
    ((∃ b, consumeDryRun o = .ok b) → (∃ m, consumeMinimumItems o = .ok m) →
      consume ⟨.dict o, paths⟩ = .error .missingRetentionRule) ∧
    (∀ e, consumeMinimumItems o = .error e →
      (∃ b, consumeDryRun o = .ok b) →
      consume ⟨.dict o, paths⟩ = .error e) := by
  refine ⟨?_, ?_, ?_⟩
  · cases hdr : consumeDryRun o with
    | error e => exact ⟨e, by simp [consume, hdr]⟩
    | ok b =>
      cases hm : consumeMinimumItems o with
      | error e => exact ⟨e, by simp [consume, hdr, hm]⟩
      | ok m =>
        exact ⟨.missingRetentionRule, by simp [consume, hdr, hm, hmi, hma]⟩
  · rintro ⟨b, hb⟩ ⟨m, hm⟩
    simp [consume, hb, hm, hmi, hma]
  · rintro e he ⟨b, hb⟩
    simp [consume, hb, he]

/-- C6 (witness): a document whose options mapping has only
`target-type: file` and `date-detection: file` (and a valid `paths`) is
rejected with the missing-retention-rule error. -/
theorem claim_c6_witness :
    consume ⟨.dict ⟨none, none, none, none, some (.str "file"),
      some (.str "file")⟩, .str "/backups"⟩
      = .error .missingRetentionRule :=
  (claim_c6 ⟨none, none, none, none, some (.str "file"),
      some (.str "file")⟩ (.str "/backups") rfl rfl).2.1
    ⟨true, rfl⟩ ⟨0, rfl⟩

/-- C7 (counterexample): the claim says a candidate whose stat fails
with not-found is skipped and excluded from the comparison. With two
candidates of which candidate 0 has vanished, the oldest-item scan does
not skip it and return the survivor — it propagates the
`FileNotFoundError` — whereas scanning only the survivor succeeds. -/
theorem claim_c7_counterexample :
    pick_oldest_item_fallible
        (fun n : ℕ => if n = 0 then .vanished else .present 1)
        [0, 1] none
      = .error .fileNotFound ∧
    pick_oldest_item_fallible
        (fun n : ℕ => if n = 0 then .vanished else .present 1)
        [1] none
      = .ok (some 1) :=
  ⟨rfl, rfl⟩

/-- C7 (amended): a candidate whose stat lookup fails with not-found is
not skipped: `Util.detect_item_creation_date` catches the
`FileNotFoundError` only to re-raise it, and the oldest-item scan of
`_pick_oldest_item` has no handler, so whenever any scanned candidate
has vanished the whole scan propagates the `FileNotFoundError` (and the
caller crashes rather than purging); only the missing `st_birthtime`
attribute is tolerated, by falling back to the previously read
timestamp. -/
theorem claim_c7_amended {α : Type} (st : α → FileState)
    (stU : Util.ItemState) (items : List α) (best : Option (α × ℚ)) :
    (stU = .vanished →
      Util.detect_item_creation_date stU = .error .fileNotFound) ∧
    ((∃ x ∈ items, st x = .vanished) →
      pick_oldest_item_fallible st items best = .error .fileNotFound) := by
  constructor
  · intro h
    rw [h]
    rfl
  · induction items generalizing best with
    | nil =>
      rintro ⟨x, hx, -⟩
      exact absurd hx (List.not_mem_nil x)
    | cons y rest ih =>
      intro hex
      cases hy : st y with
      | vanished =>
        simp [pick_oldest_item_fallible, detect_item_date, hy]
      | present c =>
        have hex' : ∃ x ∈ rest, st x = .vanished := by
          obtain ⟨x, hx, hv⟩ := hex
          rcases List.mem_cons.mp hx with rfl | hx'
          · rw [hy] at hv
            exact absurd hv (by simp)
          · exact ⟨x, hx', hv⟩
        cases best with
        | none =>
          simp only [pick_oldest_item_fallible, detect_item_date, hy]
          exact ih (some (y, c)) hex'
        | some p =>
          obtain ⟨b, bc⟩ := p
          by_cases hc : c < bc
          · simp only [pick_oldest_item_fallible, detect_item_date, hy]
            rw [if_pos hc]
            exact ih (some (y, c)) hex'
          · simp only [pick_oldest_item_fallible, detect_item_date, hy]
            rw [if_neg hc]
            exact ih (some (b, bc)) hex'

/-- C7 (witness): a vanished item makes
`Util.detect_item_creation_date` return the re-raised not-found error,
and a scan over a two-candidate list whose first candidate has vanished
propagates that error. -/
theorem claim_c7_witness :
    Util.detect_item_creation_date .vanished = .error .fileNotFound ∧
    pick_oldest_item_fallible
        (fun n : ℕ => if n = 0 then .vanished else .present 1)
        [0, 1] none
      = .error .fileNotFound := by
  have h := claim_c7_amended
    (fun n : ℕ => if n = 0 then .vanished else .present 1)
    Util.ItemState.vanished [0, 1] none
  exact ⟨h.1 rfl, h.2 ⟨0, by decide, rfl⟩⟩

/-- C8: the duration formatter maps 90061 seconds (given as a Python
int or as a float) to exactly "1 day, 1 hour, 1 minute, 1 second" —
using 86400 s/day, 3600 s/hour and 60 s/minute from the unit table —
and maps 0 to the empty string. -/
theorem claim_c8 :
    Util.seconds_to_time_string (.int 90061)
      = "1 day, 1 hour, 1 minute, 1 second" ∧
    Util.seconds_to_time_string (.float ((90061 : ℤ) : ℚ))
      = "1 day, 1 hour, 1 minute, 1 second" ∧
    BackupRotator.seconds_to_time_string (.float ((90061 : ℤ) : ℚ))
      = .ok "1 day, 1 hour, 1 minute, 1 second" ∧
    Util.seconds_to_time_string (.int 0) = "" ∧
    Util.seconds_to_time_string (.float ((0 : ℤ) : ℚ)) = "" :=
  ⟨by decide, by decide, rfl, by decide, by decide⟩

/-- C9: a config document whose options mapping omits the `dry-run` key
loads into a Config Record whose `dryRun` flag is `true` (the default
set in `ConfigFile.__init__`), so the record-based removal suppresses
deletions for that config even without a global dry run. -/
theorem claim_c9 (o : RawOptions) (paths : PathsField) (r : ConfigRecord)
    (hdr : o.dryRun = none) (hok : consume ⟨.dict o, paths⟩ = .ok r) :
    r.dryRun = true ∧ ∀ g : Bool, remove_item_for_record g r ≠ .purge := by
  have hb : consumeDryRun o = .ok true := by simp [consumeDryRun, hdr]
  simp only [consume, hb] at hok
  repeat' split at hok
  all_goals try (exfalso; exact Except.noConfusion hok)
  injection hok with h
  subst h
  refine ⟨rfl, ?_⟩
  intro g
  cases g <;> simp [remove_item_for_record]

/-- C9 (witness): a concrete document with `maximum-items: 5`,
`target-type: file`, `date-detection: file`, one path and no `dry-run`
key loads with `dryRun = true`, and its record-based removal never
purges. -/
theorem claim_c9_witness :
    (⟨true, 0, some 5, none, "file", "file", ["/backups"]⟩ :
        ConfigRecord).dryRun = true ∧
    ∀ g : Bool, remove_item_for_record g
      ⟨true, 0, some 5, none, "file", "file", ["/backups"]⟩ ≠ .purge :=
  claim_c9
    ⟨none, none, some (.int 5), none, some (.str "file"),
      some (.str "file")⟩
    (.str "/backups")
    ⟨true, 0, some 5, none, "file", "file", ["/backups"]⟩
    rfl rfl

/-- C10: the `seconds_to_time_string` defined in
`src/domain/BackupRotator.py` raises a `TypeError` for every int
argument (its int branch evaluates `float * 1.0`, multiplying the type
object itself) and completes only for float arguments, while the
parallel `Util.seconds_to_time_string` converts ints with
`float(seconds)` and formats them identically to the equal-valued
float. -/
theorem claim_c10 :
    (∀ n : ℤ,
      BackupRotator.seconds_to_time_string (.int n) = .error .typeError) ∧
    (∀ q : ℚ,
      BackupRotator.seconds_to_time_string (.float q)
        = .ok (secondsToTimeStringBody q)) ∧
    (∀ n : ℤ,
      Util.seconds_to_time_string (.int n)
        = secondsToTimeStringBody ((n : ℤ) : ℚ)) ∧
    (∀ n : ℤ,
      Util.seconds_to_time_string (.int n)
        = Util.seconds_to_time_string (.float ((n : ℤ) : ℚ))) :=
  ⟨fun _ => rfl, fun _ => rfl, fun _ => rfl, fun _ => rfl⟩
